import Mathlib

/-!
Verification of the channel posting scheduler of the mirrornet Telegram bot
(the Reddit poster class in `src/posters/reddit.ts`).

The poster's pure decision logic is embedded shallowly:
* `RedditChannel` / `RedditPost` mirror the interfaces of
  `src/sources/reddit-pushshift-api.ts`;
* the per-channel history of published posts (`publishedPosts`, a JS `Map`
  from post id to creation time, one per channel id) is an association list
  with JS-`Map` `has`/`set`/`clear` semantics;
* `publishPosts` is the throttled publish loop, parametrised by `sendOk`,
  the final (post-retry) outcome of `sendPost` for each post;
* `retryRun` is the bounded-retry recursion shared verbatim by `sendPost`
  (publish) and `updatePosts` (fetch), recording the attempt numbers and the
  sleeps it performs;
* `updateChannelStep` is one step of the channel driver `updateChannel`,
  parametrised by the database refresh outcome and the post-retry fetch
  outcome.

Timing side effects (`sleep`, `setTimeout` delays) are recorded as data
(`sleeps` lists, `DriverAction.scheduleRetry` delays) so that temporal
claims become statements about those values.
-/

/-- Post structure received from the PushShift API
(`RedditPost` in `reddit-pushshift-api.ts`).  The optional
`removed_by_category` string is the removal marker; following JS truthiness,
the marker is effective exactly when the string is present and non-empty. -/
structure RedditPost where
  id : Nat
  created_utc : String
  title : String
  url : String
  removed_by_category : Option String
deriving DecidableEq, Repr

/-- Channel configuration record (`RedditChannel` in
`reddit-pushshift-api.ts`); `interval` is the optional per-channel posting
interval in milliseconds. -/
structure RedditChannel where
  id : Nat
  enabled : Bool
  name : String
  telegram : String
  interval : Option Nat
  subreddit : String
deriving DecidableEq, Repr

/-- JS truthiness of an optional string: `undefined` and the empty string
are falsy, every other string is truthy. -/
def truthyStr : Option String → Bool
  | none => false
  | some s => !(s == "")

/-- One channel's history of published posts: the JS `Map<number, string>`
from post id to creation time, kept in insertion order. -/
abbrev History := List (Nat × String)

/-- JS `Map.prototype.has`: membership of a post id in the history. -/
def History.hasId (h : History) (k : Nat) : Bool :=
  h.any (fun kv => kv.1 == k)

/-- JS `Map.prototype.set`: overwrite the value if the key is present,
otherwise append the binding at the end. -/
def History.set (h : History) (k : Nat) (v : String) : History :=
  if h.hasId k then h.map (fun kv => if kv.1 == k then (k, v) else kv)
  else h ++ [(k, v)]

/-- The per-channel array `publishedPosts` of the poster, indexed by
channel id. -/
abbrev Histories := Nat → History

/-- JS `Map.prototype.clear` applied to channel `c`'s history
(`publishedPosts[c].clear()` with a correctly bound receiver):
channel `c`'s map becomes empty and every other channel's map is
untouched. -/
def clearHistory (hs : Histories) (c : Nat) : Histories :=
  fun i => if i = c then [] else hs i

namespace Reddit

/-- Auxiliary constant `second` of the constructor. -/
def second : Nat := 1000

/-- Auxiliary constant `minute` of the constructor. -/
def minute : Nat := 60 * second

/-- Auxiliary constant `hour` of the constructor. -/
def hour : Nat := 60 * minute

/-- Time interval between starting channels (constructor default). -/
def startingInterval : Nat := second

/-- Global default time interval between posts (constructor default). -/
def postingInterval : Nat := 5 * minute

/-- Time interval between retry attempts (constructor default). -/
def retryInterval : Nat := 5 * second

/-- Time interval between imports from the source (constructor default). -/
def updatingInterval : Nat := hour

/-- Time interval between clearings of the history (constructor default). -/
def clearingInterval : Nat := 24 * hour

/-- Maximum number of attempts of a retried operation (constructor
default). -/
def maxRetries : Nat := 3

/-- The effective posting interval of a channel:
`channel.interval || this.postingInterval` — JS `||` falls back to the
global default when `interval` is absent or `0` (both falsy). -/
def channelPostingInterval (channel : RedditChannel) : Nat :=
  match channel.interval with
  | none => Reddit.postingInterval
  | some i => if i = 0 then Reddit.postingInterval else i

/-- `maxPostsPerUpdate` of `publishPosts`:
`Math.floor(this.updatingInterval / postingInterval)`. -/
def maxPostsPerUpdate (channel : RedditChannel) : Nat :=
  Reddit.updatingInterval / channelPostingInterval channel

/-- The filtering loop of `publishPosts`: skip posts whose removal marker is
truthy, skip posts whose id is already in the channel's history; the rest
are the new posts, in input order. -/
def filterNew (hist : History) (posts : List RedditPost) : List RedditPost :=
  posts.filter (fun post =>
    !(truthyStr post.removed_by_category) && !(hist.hasId post.id))

/-- Observable outcome of the publishing loop of `publishPosts`:
the posts passed to `sendPost` in order, the pacing sleeps performed, the
final history and the final `postsCounter`. -/
structure LoopOut where
  invoked : List RedditPost
  sleeps : List Nat
  history : History
  counter : Nat
deriving DecidableEq, Repr

/-- The publishing loop of `publishPosts` over the filtered posts:
break when `postsCounter == maxPostsPerUpdate`; otherwise send the post —
on success increment the counter, record the post in the history and sleep
for the posting interval; on (retry-exhausted) failure only log and move
on.  `sendOk` gives the final outcome of `sendPost` for each post. -/
def publishLoop (sendOk : RedditPost → Bool) (maxPosts pInterval : Nat) :
    List RedditPost → History → Nat → LoopOut
  | [], hist, counter => ⟨[], [], hist, counter⟩
  | post :: rest, hist, counter =>
    if counter = maxPosts then ⟨[], [], hist, counter⟩
    else if sendOk post then
      let r := publishLoop sendOk maxPosts pInterval rest
        (hist.set post.id post.created_utc) (counter + 1)
      ⟨post :: r.invoked, pInterval :: r.sleeps, r.history, r.counter⟩
    else
      let r := publishLoop sendOk maxPosts pInterval rest hist counter
      ⟨post :: r.invoked, r.sleeps, r.history, r.counter⟩

/-- The two errors `publishPosts` can throw. -/
inductive PublishError where
  | noNewPosts : PublishError
  | noPostsPublished : Nat → Nat → PublishError
deriving DecidableEq, Repr

/-- The message strings of the errors thrown by `publishPosts`. -/
def PublishError.message : PublishError → String
  | PublishError.noNewPosts => "There are no new posts to be published!"
  | PublishError.noPostsPublished counter total =>
      "Failed to publish any posts (" ++ toString counter ++ " out of " ++
        toString total ++ ")!"

/-- Full observable outcome of one `publishPosts` call: loop observables
plus the error thrown, if any. -/
structure PublishResult where
  invoked : List RedditPost
  sleeps : List Nat
  history : History
  counter : Nat
  error : Option PublishError
deriving DecidableEq, Repr

/-- `publishPosts(channel, posts)` with history `hist` for this channel:
compute the effective posting interval and the per-update cap, filter the
posts, throw `noNewPosts` if nothing is left, run the publishing loop, and
throw `noPostsPublished` if the loop published nothing. -/
def publishPosts (channel : RedditChannel) (hist : History)
    (sendOk : RedditPost → Bool) (posts : List RedditPost) : PublishResult :=
  let pInterval := channelPostingInterval channel
  let maxPosts := maxPostsPerUpdate channel
  let newPosts := filterNew hist posts
  if newPosts.isEmpty then ⟨[], [], hist, 0, some PublishError.noNewPosts⟩
  else
    let r := publishLoop sendOk maxPosts pInterval newPosts hist 0
    if r.counter = 0 then
      ⟨r.invoked, r.sleeps, r.history, r.counter,
        some (PublishError.noPostsPublished r.counter posts.length)⟩
    else ⟨r.invoked, r.sleeps, r.history, r.counter, none⟩

/-- Trace of a bounded-retry run: the attempt numbers in order, the sleeps
performed between consecutive attempts, and the final result (the last
underlying error when every attempt failed). -/
structure RetryTrace (α : Type) where
  attempts : List Nat
  sleeps : List Nat
  result : Except String α
deriving Repr

/-- The retry recursion shared verbatim by `sendPost` and `updatePosts`:
try the operation at the current attempt number; on success stop at once;
on failure, if `attempt < maxRetries`, sleep for `retryInterval` and recurse
with the attempt number incremented, else stop with the last error.
`op attempt` is the outcome of the underlying operation on that attempt.
The `fuel` argument only makes the recursion structural; every call below
passes `fuel = maxRetries`, which the guard `attempt < maxRetries` keeps
from ever reaching the `0` case. -/
def retryRun {α : Type} (op : Nat → Except String α) :
    Nat → Nat → RetryTrace α
  | fuel, attempt =>
    match op attempt with
    | Except.ok a => ⟨[attempt], [], Except.ok a⟩
    | Except.error e =>
      if attempt < Reddit.maxRetries then
        match fuel with
        | 0 => ⟨[attempt], [], Except.error e⟩
        | f + 1 =>
          let r := retryRun op f (attempt + 1)
          ⟨attempt :: r.attempts, Reddit.retryInterval :: r.sleeps, r.result⟩
      else ⟨[attempt], [], Except.error e⟩

/-- `sendPost(channelName, chatId, post)` as a retry trace: attempts start
at `1`; when the budget is exhausted the thrown error is
`"Failed to publish the post " ++ post.url ++ ". " ++ lastErrorMessage`. -/
def sendPost (post : RedditPost) (op : Nat → Except String Unit) :
    RetryTrace Unit :=
  let t := retryRun op Reddit.maxRetries 1
  ⟨t.attempts, t.sleeps,
    match t.result with
    | Except.error e =>
        Except.error ("Failed to publish the post " ++ post.url ++ ". " ++ e)
    | Except.ok u => Except.ok u⟩

/-- The fetch-with-retry part of `updatePosts(channel)` as a retry trace:
attempts start at `1`; when the budget is exhausted the thrown error is
`"Failed to get posts from Reddit: " ++ lastErrorMessage`. -/
def updatePosts (op : Nat → Except String (List RedditPost)) :
    RetryTrace (List RedditPost) :=
  let t := retryRun op Reddit.maxRetries 1
  ⟨t.attempts, t.sleeps,
    match t.result with
    | Except.error e =>
        Except.error ("Failed to get posts from Reddit: " ++ e)
    | Except.ok posts => Except.ok posts⟩

/-- The error message, if any, with which one `updatePosts` cycle rejects:
either the wrapped fetch failure after exhausted retries, or the error
thrown by `publishPosts` on the fetched posts. `fetchResult` is the
post-retry outcome of the fetch step. -/
def updatePostsResult (channel : RedditChannel) (hist : History)
    (sendOk : RedditPost → Bool)
    (fetchResult : Except String (List RedditPost)) : Option String :=
  match fetchResult with
  | Except.error e => some ("Failed to get posts from Reddit: " ++ e)
  | Except.ok posts =>
      ((publishPosts channel hist sendOk posts).error).map PublishError.message

/-- The scheduling decision one `updateChannel` step ends with. -/
inductive DriverAction where
  /-- The database refresh failed (channel missing or store unreachable):
  the channel is logged as stopped and nothing more is scheduled. -/
  | stopped : DriverAction
  /-- The cycle failed: `setTimeout(channel => this.updateChannel(channel),
  delay, channel)` schedules a fresh update after `delay` milliseconds. -/
  | scheduleRetry : Nat → DriverAction
  /-- The cycle succeeded: `publishPosts` chains straight into the next
  `updateChannel` call. -/
  | nextCycle : DriverAction
  /-- The refresh returned `null` without throwing (unreachable per the
  source comment): nothing happens. -/
  | silent : DriverAction
deriving DecidableEq, Repr

/-- Observables of one `updateChannel` step: whether `updatePosts` (and
hence a fetch call) was issued, and the scheduling decision taken. -/
structure DriverStep where
  fetchIssued : Bool
  action : DriverAction
deriving DecidableEq, Repr

/-- One step of `updateChannel(channel)`: refresh the channel from the
database; if the refresh throws, log that the channel is stopped and do
nothing further; if it returns a channel, run `updatePosts` on the
refreshed record and, if the cycle fails, schedule a fresh `updateChannel`
after `this.postingInterval` (the global default) milliseconds. -/
def updateChannelStep (dbResult : Except String (Option RedditChannel))
    (hist : History) (sendOk : RedditPost → Bool)
    (fetchResult : Except String (List RedditPost)) : DriverStep :=
  match dbResult with
  | Except.error _ => ⟨false, DriverAction.stopped⟩
  | Except.ok none => ⟨false, DriverAction.silent⟩
  | Except.ok (some channel) =>
    match updatePostsResult channel hist sendOk fetchResult with
    | some _ => ⟨true, DriverAction.scheduleRetry Reddit.postingInterval⟩
    | none => ⟨true, DriverAction.nextCycle⟩

/-- The channel filter of `start()`: only channels with a truthy `enabled`
flag are started (history created, clear timer registered, driver
scheduled). -/
def startedChannels (channels : List RedditChannel) : List RedditChannel :=
  channels.filter (fun channel => channel.enabled)

/-- Fixture: a channel with the given id, posting interval and enabled
flag. -/
def mkChannel (i : Nat) (intervalOpt : Option Nat) (enabledFlag : Bool) :
    RedditChannel :=
  ⟨i, enabledFlag, "ch", "addr", intervalOpt, "sub"⟩

/-- Fixture: a non-removed post with the given id. -/
def mkPost (i : Nat) : RedditPost :=
  ⟨i, "t", "title", "u", none⟩

/-- Fixture for C1: channel id 1 with a configured interval of 300000 ms. -/
def c1chan : RedditChannel := mkChannel 1 (some 300000) true

/-- Fixture for C1: 20 new non-removed posts with ids 1..20. -/
def c1posts : List RedditPost := (List.range 20).map (fun i => mkPost (i + 1))

/-- Fixture for C4: a channel whose configured posting interval (600000 ms)
differs from the global default. -/
def c4chan : RedditChannel := mkChannel 2 (some 600000) true

/-- Fixture for C5: a channel that still exists but is disabled. -/
def c5chan : RedditChannel := mkChannel 3 none false

/-- Fixture for C7: a post whose url contains no digit. -/
def c7post : RedditPost := mkPost 7

/-- Fixture for C7: an underlying publish operation failing on every
attempt with a digit-free message. -/
def c7op : Nat → Except String Unit := fun _ => Except.error "x"

end Reddit

/-- Setting a key makes `hasId` of that key true. -/
theorem History.hasId_set_self (h : History) (k : Nat) (v : String) :
    (h.set k v).hasId k = true := by
  unfold History.set
  by_cases hk : h.hasId k
  · simp only [hk, if_true]
    unfold History.hasId at hk ⊢
    rw [List.any_map]
    rcases List.any_eq_true.mp hk with ⟨kv, hmem, hbeq⟩
    exact List.any_eq_true.mpr ⟨kv, hmem, by simp [Function.comp, hbeq]⟩
  · simp only [hk, if_false]
    unfold History.hasId
    simp [List.any_append]

/-- Setting a key preserves membership of every key already present. -/
theorem History.hasId_set_mono (h : History) (k k' : Nat) (v : String)
    (hk' : h.hasId k' = true) : (h.set k v).hasId k' = true := by
  unfold History.set
  by_cases hk : h.hasId k
  · simp only [hk, if_true]
    unfold History.hasId at hk' ⊢
    rw [List.any_map]
    rcases List.any_eq_true.mp hk' with ⟨kv, hmem, hbeq⟩
    refine List.any_eq_true.mpr ⟨kv, hmem, ?_⟩
    by_cases hkk : kv.1 == k
    · have h1 : kv.1 = k := by simpa using hkk
      have h2 : kv.1 = k' := by simpa using hbeq
      simp [Function.comp, hkk, ← h1, h2]
    · simp [Function.comp, hkk, hbeq]
  · simp only [hk, if_false]
    unfold History.hasId at hk' ⊢
    simp [List.any_append, hk']

namespace Reddit

/-- The loop counter never exceeds `maxPosts` when it starts at or below
it. -/
theorem publishLoop_counter_le (sendOk : RedditPost → Bool)
    (maxPosts pInterval : Nat) :
    ∀ (l : List RedditPost) (hist : History) (counter : Nat),
      counter ≤ maxPosts →
      (publishLoop sendOk maxPosts pInterval l hist counter).counter
        ≤ maxPosts := by
  intro l
  induction l with
  | nil => intro hist counter h; simpa [publishLoop] using h
  | cons post rest ih =>
    intro hist counter h
    by_cases hc : counter = maxPosts
    · simp [publishLoop, hc]
    · by_cases hs : sendOk post
      · simpa [publishLoop, hc, hs] using
          ih (hist.set post.id post.created_utc) (counter + 1) (by omega)
      · simpa [publishLoop, hc, hs] using ih hist counter h

/-- The loop counter never decreases. -/
theorem publishLoop_counter_mono (sendOk : RedditPost → Bool)
    (maxPosts pInterval : Nat) :
    ∀ (l : List RedditPost) (hist : History) (counter : Nat),
      counter ≤ (publishLoop sendOk maxPosts pInterval l hist counter).counter := by
  intro l
  induction l with
  | nil => intro hist counter; simp [publishLoop]
  | cons post rest ih =>
    intro hist counter
    by_cases hc : counter = maxPosts
    · simp [publishLoop, hc]
    · by_cases hs : sendOk post
      · have := ih (hist.set post.id post.created_utc) (counter + 1)
        simp only [publishLoop, hc, if_false, hs, if_true]
        omega
      · have := ih hist counter
        simpa [publishLoop, hc, hs] using this

/-- Every post the loop passes to `sendPost` comes from its input list. -/
theorem publishLoop_invoked_mem (sendOk : RedditPost → Bool)
    (maxPosts pInterval : Nat) :
    ∀ (l : List RedditPost) (hist : History) (counter : Nat)
      (p : RedditPost),
      p ∈ (publishLoop sendOk maxPosts pInterval l hist counter).invoked →
      p ∈ l := by
  intro l
  induction l with
  | nil => intro hist counter p hp; simp [publishLoop] at hp
  | cons post rest ih =>
    intro hist counter p hp
    by_cases hc : counter = maxPosts
    · simp [publishLoop, hc] at hp
    · by_cases hs : sendOk post
      · simp [publishLoop, hc, hs, List.mem_cons] at hp
        rcases hp with hp | hp
        · exact hp ▸ List.mem_cons_self _ _
        · exact List.mem_cons_of_mem _ (ih _ _ p hp)
      · simp [publishLoop, hc, hs, List.mem_cons] at hp
        rcases hp with hp | hp
        · exact hp ▸ List.mem_cons_self _ _
        · exact List.mem_cons_of_mem _ (ih _ _ p hp)

/-- Ids already in the history stay in the history across the loop. -/
theorem publishLoop_hasId_mono (sendOk : RedditPost → Bool)
    (maxPosts pInterval : Nat) :
    ∀ (l : List RedditPost) (hist : History) (counter : Nat) (k : Nat),
      hist.hasId k = true →
      ((publishLoop sendOk maxPosts pInterval l hist counter).history).hasId k
        = true := by
  intro l
  induction l with
  | nil => intro hist counter k hk; simpa [publishLoop] using hk
  | cons post rest ih =>
    intro hist counter k hk
    by_cases hc : counter = maxPosts
    · simpa [publishLoop, hc] using hk
    · by_cases hs : sendOk post
      · simpa [publishLoop, hc, hs] using
          ih _ (counter + 1) k (History.hasId_set_mono _ _ _ _ hk)
      · simpa [publishLoop, hc, hs] using ih hist counter k hk

/-- Every successfully sent post's id ends up in the loop's final
history. -/
theorem publishLoop_sent_recorded (sendOk : RedditPost → Bool)
    (maxPosts pInterval : Nat) :
    ∀ (l : List RedditPost) (hist : History) (counter : Nat)
      (p : RedditPost),
      p ∈ (publishLoop sendOk maxPosts pInterval l hist counter).invoked →
      sendOk p = true →
      ((publishLoop sendOk maxPosts pInterval l hist counter).history).hasId p.id
        = true := by
  intro l
  induction l with
  | nil => intro hist counter p hp; simp [publishLoop] at hp
  | cons post rest ih =>
    intro hist counter p hp hok
    by_cases hc : counter = maxPosts
    · simp [publishLoop, hc] at hp
    · by_cases hs : sendOk post
      · simp only [publishLoop] at hp ⊢
        simp [hc, hs, List.mem_cons] at hp ⊢
        rcases hp with hp | hp
        · subst hp
          exact publishLoop_hasId_mono sendOk maxPosts pInterval rest _ _ _
            (History.hasId_set_self hist p.id p.created_utc)
        · exact ih _ _ p hp hok
      · simp only [publishLoop] at hp ⊢
        simp [hc, hs, List.mem_cons] at hp ⊢
        rcases hp with hp | hp
        · subst hp; rw [hok] at hs; exact absurd rfl hs
        · exact ih hist counter p hp hok

/-- The loop sleeps exactly once per successful send, each time for the
posting interval. -/
theorem publishLoop_sleeps_replicate (sendOk : RedditPost → Bool)
    (maxPosts pInterval : Nat) :
    ∀ (l : List RedditPost) (hist : History) (counter : Nat),
      (publishLoop sendOk maxPosts pInterval l hist counter).sleeps
        = List.replicate
            ((publishLoop sendOk maxPosts pInterval l hist counter).counter
              - counter) pInterval := by
  intro l
  induction l with
  | nil => intro hist counter; simp [publishLoop]
  | cons post rest ih =>
    intro hist counter
    by_cases hc : counter = maxPosts
    · simp [publishLoop, hc]
    · by_cases hs : sendOk post
      · have hmono := publishLoop_counter_mono sendOk maxPosts pInterval rest
          (hist.set post.id post.created_utc) (counter + 1)
        have := ih (hist.set post.id post.created_utc) (counter + 1)
        simp only [publishLoop, hc, if_false, hs, if_true]
        rw [this]
        have hsub : (publishLoop sendOk maxPosts pInterval rest
            (hist.set post.id post.created_utc) (counter + 1)).counter - counter
            = ((publishLoop sendOk maxPosts pInterval rest
                (hist.set post.id post.created_utc) (counter + 1)).counter
              - (counter + 1)) + 1 := by omega
        rw [hsub, List.replicate_succ]
      · simpa [publishLoop, hc, hs] using ih hist counter

/-- A retry trace always begins with the attempt number it was started
at. -/
theorem retryRun_attempts_head {α : Type} (op : Nat → Except String α) :
    ∀ (fuel attempt : Nat),
      (retryRun op fuel attempt).attempts.head? = some attempt := by
  intro fuel
  induction fuel with
  | zero =>
    intro attempt
    unfold retryRun
    cases op attempt with
    | ok a => simp
    | error e => by_cases h : attempt < Reddit.maxRetries <;> simp [h]
  | succ f ih =>
    intro attempt
    unfold retryRun
    cases op attempt with
    | ok a => simp
    | error e => by_cases h : attempt < Reddit.maxRetries <;> simp [h]

/-- A retry trace sleeps exactly once between consecutive attempts. -/
theorem retryRun_sleeps_length {α : Type} (op : Nat → Except String α) :
    ∀ (fuel attempt : Nat),
      (retryRun op fuel attempt).sleeps.length + 1
        = (retryRun op fuel attempt).attempts.length := by
  intro fuel
  induction fuel with
  | zero =>
    intro attempt
    unfold retryRun
    cases op attempt with
    | ok a => simp
    | error e => by_cases h : attempt < Reddit.maxRetries <;> simp [h]
  | succ f ih =>
    intro attempt
    unfold retryRun
    cases op attempt with
    | ok a => simp
    | error e =>
      by_cases h : attempt < Reddit.maxRetries
      · simpa [h] using ih (attempt + 1)
      · simp [h]

/-- Every sleep of a retry trace lasts exactly `retryInterval`
milliseconds. -/
theorem retryRun_sleeps_all {α : Type} (op : Nat → Except String α) :
    ∀ (fuel attempt : Nat),
      ((retryRun op fuel attempt).sleeps.all
        (fun d => d == Reddit.retryInterval)) = true := by
  intro fuel
  induction fuel with
  | zero =>
    intro attempt
    unfold retryRun
    cases op attempt with
    | ok a => simp
    | error e => by_cases h : attempt < Reddit.maxRetries <;> simp [h]
  | succ f ih =>
    intro attempt
    unfold retryRun
    cases op attempt with
    | ok a => simp
    | error e =>
      by_cases h : attempt < Reddit.maxRetries
      · simpa [h] using ih (attempt + 1)
      · simp [h]

/-- The per-cycle counter of `publishPosts` is bounded by the per-update
cap. -/
theorem publishPosts_counter_le (channel : RedditChannel) (hist : History)
    (sendOk : RedditPost → Bool) (posts : List RedditPost) :
    (publishPosts channel hist sendOk posts).counter
      ≤ maxPostsPerUpdate channel := by
  unfold publishPosts
  by_cases he : (filterNew hist posts).isEmpty
  · simp [he]
  · have := publishLoop_counter_le sendOk (maxPostsPerUpdate channel)
      (channelPostingInterval channel) (filterNew hist posts) hist 0
      (Nat.zero_le _)
    by_cases hz : (publishLoop sendOk (maxPostsPerUpdate channel)
        (channelPostingInterval channel) (filterNew hist posts) hist 0).counter = 0
    · simp [he, hz]
    · simpa [he, hz] using this

/-- Every post `publishPosts` passes to `sendPost` survived the filter. -/
theorem publishPosts_invoked_new (channel : RedditChannel) (hist : History)
    (sendOk : RedditPost → Bool) (posts : List RedditPost) (p : RedditPost)
    (hp : p ∈ (publishPosts channel hist sendOk posts).invoked) :
    p ∈ filterNew hist posts := by
  unfold publishPosts at hp
  by_cases he : (filterNew hist posts).isEmpty
  · simp [he] at hp
  · by_cases hz : (publishLoop sendOk (maxPostsPerUpdate channel)
        (channelPostingInterval channel) (filterNew hist posts) hist 0).counter = 0
    · simp only [he] at hp
      simp only [Bool.false_eq_true, if_false, hz, if_true] at hp
      exact publishLoop_invoked_mem sendOk _ _ _ _ _ p hp
    · simp only [he] at hp
      simp only [Bool.false_eq_true, if_false, hz, if_true] at hp
      exact publishLoop_invoked_mem sendOk _ _ _ _ _ p hp

/-- Surviving the filter means: removal marker falsy and id not yet in the
history. -/
theorem filterNew_mem (hist : History) (posts : List RedditPost)
    (p : RedditPost) (hp : p ∈ filterNew hist posts) :
    truthyStr p.removed_by_category = false ∧ hist.hasId p.id = false := by
  unfold filterNew at hp
  have := List.of_mem_filter hp
  constructor
  · by_cases h : truthyStr p.removed_by_category
    · simp [h] at this
    · simpa using h
  · by_cases h : hist.hasId p.id
    · simp [h] at this
    · simpa using h

/-- Every post successfully sent by `publishPosts` has its id in the final
history. -/
theorem publishPosts_sent_recorded (channel : RedditChannel)
    (hist : History) (sendOk : RedditPost → Bool) (posts : List RedditPost)
    (p : RedditPost)
    (hp : p ∈ (publishPosts channel hist sendOk posts).invoked)
    (hok : sendOk p = true) :
    ((publishPosts channel hist sendOk posts).history).hasId p.id = true := by
  unfold publishPosts at hp ⊢
  by_cases he : (filterNew hist posts).isEmpty
  · simp [he] at hp
  · by_cases hz : (publishLoop sendOk (maxPostsPerUpdate channel)
        (channelPostingInterval channel) (filterNew hist posts) hist 0).counter = 0
    · simp only [he, Bool.false_eq_true, if_false, hz, if_true] at hp ⊢
      exact publishLoop_sent_recorded sendOk _ _ _ _ _ p hp hok
    · simp only [he, Bool.false_eq_true, if_false, hz, if_true] at hp ⊢
      exact publishLoop_sent_recorded sendOk _ _ _ _ _ p hp hok

/-- `publishPosts` sleeps once per successful send, each time for the
channel's effective posting interval. -/
theorem publishPosts_sleeps (channel : RedditChannel) (hist : History)
    (sendOk : RedditPost → Bool) (posts : List RedditPost) :
    (publishPosts channel hist sendOk posts).sleeps
      = List.replicate (publishPosts channel hist sendOk posts).counter
          (channelPostingInterval channel) := by
  unfold publishPosts
  by_cases he : (filterNew hist posts).isEmpty
  · simp [he]
  · have := publishLoop_sleeps_replicate sendOk (maxPostsPerUpdate channel)
      (channelPostingInterval channel) (filterNew hist posts) hist 0
    by_cases hz : (publishLoop sendOk (maxPostsPerUpdate channel)
        (channelPostingInterval channel) (filterNew hist posts) hist 0).counter = 0
    · simpa [he, hz] using this
    · simpa [he, hz] using this

/-- With a per-update cap of `0` the publishing loop stops before sending
anything. -/
theorem publishLoop_zero_cap (sendOk : RedditPost → Bool) (pInterval : Nat) :
    ∀ (l : List RedditPost) (hist : History),
      publishLoop sendOk 0 pInterval l hist 0 = ⟨[], [], hist, 0⟩ := by
  intro l hist
  cases l <;> simp [publishLoop]

/-- C1: `publishPosts` computes the per-cycle cap as
`floor(updatingInterval / postingInterval)` with the channel's configured
interval or the global default, and at most that many successful publishes
occur per cycle; for channel id 1 with interval 300000 ms and update cycle
3600000 ms fed 20 new non-removed posts, the cap is 12, exactly 12 posts
are sent, and the remaining 8 (ids 13..20) are not recorded in the
history. -/
theorem c1_max_posts_per_cycle :
    (∀ (channel : RedditChannel) (hist : History)
        (sendOk : RedditPost → Bool) (posts : List RedditPost),
        (publishPosts channel hist sendOk posts).counter
          ≤ maxPostsPerUpdate channel)
    ∧ (∀ (channel : RedditChannel),
        maxPostsPerUpdate channel
          = Reddit.updatingInterval / channelPostingInterval channel)
    ∧ Reddit.updatingInterval = 3600000
    ∧ channelPostingInterval c1chan = 300000
    ∧ maxPostsPerUpdate c1chan = 12
    ∧ (publishPosts c1chan [] (fun _ => true) c1posts).counter = 12
    ∧ (publishPosts c1chan [] (fun _ => true) c1posts).invoked.length = 12
    ∧ (((List.range 8).map (fun i => i + 13)).all
        (fun i =>
          !((publishPosts c1chan [] (fun _ => true) c1posts).history.hasId i)))
        = true := by
  refine ⟨publishPosts_counter_le, fun channel => rfl, by decide, by decide,
    by decide, by decide, by decide, by decide⟩

/-- C2: the publish loop never invokes the message publisher on a post with
a truthy removal marker or whose id is already in the channel's history;
a successfully sent post is recorded in the history, so a later cycle
containing a post with the same id never re-sends it. -/
theorem c2_filter_and_history :
    (∀ (channel : RedditChannel) (hist : History)
        (sendOk : RedditPost → Bool) (posts : List RedditPost)
        (p : RedditPost),
        p ∈ (publishPosts channel hist sendOk posts).invoked →
        truthyStr p.removed_by_category = false ∧ hist.hasId p.id = false)
    ∧ (∀ (channel : RedditChannel) (hist : History)
        (sendOk : RedditPost → Bool) (posts : List RedditPost)
        (p : RedditPost),
        p ∈ (publishPosts channel hist sendOk posts).invoked →
        sendOk p = true →
        ((publishPosts channel hist sendOk posts).history).hasId p.id = true)
    ∧ (∀ (channel channel' : RedditChannel) (hist : History)
        (sendOk sendOk' : RedditPost → Bool)
        (posts posts' : List RedditPost) (p q : RedditPost),
        p ∈ (publishPosts channel hist sendOk posts).invoked →
        sendOk p = true → q.id = p.id →
        q ∉ (publishPosts channel'
              ((publishPosts channel hist sendOk posts).history)
              sendOk' posts').invoked) := by
  refine ⟨?_, ?_, ?_⟩
  · intro channel hist sendOk posts p hp
    exact filterNew_mem hist posts p (publishPosts_invoked_new _ _ _ _ _ hp)
  · intro channel hist sendOk posts p hp hok
    exact publishPosts_sent_recorded _ _ _ _ _ hp hok
  · intro channel channel' hist sendOk sendOk' posts posts' p q hp hok hq hmem
    have h1 := publishPosts_sent_recorded channel hist sendOk posts p hp hok
    have h2 := (filterNew_mem _ _ q (publishPosts_invoked_new _ _ _ _ _ hmem)).2
    rw [hq, h1] at h2
    simp at h2

/-- Witness for C2 at a concrete channel, post and history. -/
theorem c2_filter_and_history_witness :
    (mkPost 42 ∈ (publishPosts (mkChannel 21 none true) []
        (fun _ => true) [mkPost 42]).invoked)
    ∧ truthyStr (mkPost 42).removed_by_category = false
    ∧ ((publishPosts (mkChannel 21 none true) [] (fun _ => true)
        [mkPost 42]).history).hasId (mkPost 42).id = true
    ∧ (mkPost 42) ∉ (publishPosts (mkChannel 21 none true)
        ((publishPosts (mkChannel 21 none true) [] (fun _ => true)
          [mkPost 42]).history) (fun _ => true) [mkPost 42]).invoked := by
  refine ⟨by decide,
    (c2_filter_and_history.1 (mkChannel 21 none true) [] (fun _ => true)
      [mkPost 42] (mkPost 42) (by decide)).1,
    c2_filter_and_history.2.1 (mkChannel 21 none true) [] (fun _ => true)
      [mkPost 42] (mkPost 42) (by decide) rfl,
    c2_filter_and_history.2.2 (mkChannel 21 none true) (mkChannel 21 none true)
      [] (fun _ => true) (fun _ => true) [mkPost 42] [mkPost 42]
      (mkPost 42) (mkPost 42) (by decide) rfl rfl⟩

/-- C3: the retry logic shared by `sendPost` (publish) and `updatePosts`
(fetch) starts the attempt count at 1, sleeps a fixed `retryInterval`
(5000 ms) between consecutive attempts, makes exactly 3 attempts before a
terminal failure, and stops immediately on a success (a success on attempt
2 makes no third attempt). -/
theorem c3_retry_policy :
    (∀ (op : Nat → Except String Unit) (post : RedditPost)
        (e1 e2 e3 : String),
        op 1 = Except.error e1 → op 2 = Except.error e2 →
        op 3 = Except.error e3 →
        (sendPost post op).attempts = [1, 2, 3]
        ∧ (sendPost post op).sleeps
            = [Reddit.retryInterval, Reddit.retryInterval])
    ∧ (∀ (op : Nat → Except String Unit) (post : RedditPost) (e1 : String),
        op 1 = Except.error e1 → op 2 = Except.ok () →
        (sendPost post op).attempts = [1, 2]
        ∧ (sendPost post op).sleeps = [Reddit.retryInterval]
        ∧ (sendPost post op).result = Except.ok ())
    ∧ (∀ (op : Nat → Except String (List RedditPost)),
        (updatePosts op).attempts.head? = some 1
        ∧ (updatePosts op).sleeps.length + 1
            = (updatePosts op).attempts.length
        ∧ ((updatePosts op).sleeps.all (fun d => d == Reddit.retryInterval))
            = true)
    ∧ (∀ (op : Nat → Except String Unit) (post : RedditPost),
        (sendPost post op).attempts.head? = some 1)
    ∧ Reddit.retryInterval = 5000 ∧ Reddit.maxRetries = 3 := by
  refine ⟨?_, ?_, ?_, ?_, rfl, rfl⟩
  · intro op post e1 e2 e3 h1 h2 h3
    constructor <;> simp [sendPost, retryRun, h1, h2, h3, Reddit.maxRetries]
  · intro op post e1 h1 h2
    refine ⟨?_, ?_, ?_⟩ <;>
      simp [sendPost, retryRun, h1, h2, Reddit.maxRetries]
  · intro op
    refine ⟨?_, ?_, ?_⟩
    · simpa [updatePosts] using retryRun_attempts_head op Reddit.maxRetries 1
    · simpa [updatePosts] using retryRun_sleeps_length op Reddit.maxRetries 1
    · simpa [updatePosts] using retryRun_sleeps_all op Reddit.maxRetries 1
  · intro op post
    simpa [sendPost] using retryRun_attempts_head op Reddit.maxRetries 1

/-- Witness for C3 at two concrete operations: one failing all three
attempts, one failing once then succeeding. -/
theorem c3_retry_policy_witness :
    ((fun _ => Except.error "e" : Nat → Except String Unit) 1
        = Except.error "e")
    ∧ (sendPost (mkPost 31) (fun _ => Except.error "e")).attempts = [1, 2, 3]
    ∧ ((fun a => if a = 1 then Except.error "e" else Except.ok ()
        : Nat → Except String Unit) 2 = Except.ok ())
    ∧ (sendPost (mkPost 31)
        (fun a => if a = 1 then Except.error "e" else Except.ok ())).attempts
        = [1, 2] := by
  refine ⟨rfl, ?_, rfl, ?_⟩
  · exact (c3_retry_policy.1 (fun _ => Except.error "e") (mkPost 31)
      "e" "e" "e" rfl rfl rfl).1
  · exact (c3_retry_policy.2.1
      (fun a => if a = 1 then Except.error "e" else Except.ok ())
      (mkPost 31) "e" rfl rfl).1

/-- C4 counterexample: for a channel whose configured posting interval is
600000 ms, a failed cycle is rescheduled after the global default
`postingInterval` of 300000 ms, not after the channel's posting interval,
so the claimed delay is wrong at this input. -/
theorem c4_counterexample :
    (updateChannelStep (Except.ok (some c4chan)) [] (fun _ => true)
        (Except.error "down")).action
      = DriverAction.scheduleRetry Reddit.postingInterval
    ∧ channelPostingInterval c4chan = 600000
    ∧ Reddit.postingInterval = 300000
    ∧ DriverAction.scheduleRetry Reddit.postingInterval
        ≠ DriverAction.scheduleRetry (channelPostingInterval c4chan) := by
  refine ⟨rfl, rfl, rfl, by decide⟩

/-- C4 (amended): whenever the cycle for an existing channel fails — the
fetch retries are exhausted or `publishPosts` throws — the driver schedules
a fresh `updateChannel` after the global default posting interval
(`this.postingInterval`, 300000 ms), regardless of the channel's configured
interval; the channel is rescheduled (never stopped) by such a failure. -/
theorem c4_retry_delay_global :
    (∀ (channel : RedditChannel) (hist : History)
        (sendOk : RedditPost → Bool) (e : String),
        updateChannelStep (Except.ok (some channel)) hist sendOk
            (Except.error e)
          = ⟨true, DriverAction.scheduleRetry Reddit.postingInterval⟩)
    ∧ (∀ (channel : RedditChannel) (hist : History)
        (sendOk : RedditPost → Bool) (posts : List RedditPost),
        updateChannelStep (Except.ok (some channel)) hist sendOk
            (Except.ok posts)
          = ⟨true,
              if ((publishPosts channel hist sendOk posts).error).isSome
              then DriverAction.scheduleRetry Reddit.postingInterval
              else DriverAction.nextCycle⟩)
    ∧ (∀ (d : Nat), DriverAction.scheduleRetry d ≠ DriverAction.stopped) := by
  refine ⟨?_, ?_, ?_⟩
  · intro channel hist sendOk e
    rfl
  · intro channel hist sendOk posts
    unfold updateChannelStep updatePostsResult
    cases h : (publishPosts channel hist sendOk posts).error <;> simp [h]
  · intro d
    simp

/-- C5 counterexample: a channel that still exists in the database but has
`enabled = false` is not stopped by the refresh — the driver still runs
`updatePosts` (and hence issues a fetch) for it, so the claimed transition
to STOPPED on a disabled channel is wrong at this input. -/
theorem c5_counterexample :
    c5chan.enabled = false
    ∧ (updateChannelStep (Except.ok (some c5chan)) [] (fun _ => true)
        (Except.ok [])).fetchIssued = true
    ∧ (updateChannelStep (Except.ok (some c5chan)) [] (fun _ => true)
        (Except.ok [])).action ≠ DriverAction.stopped := by
  refine ⟨rfl, rfl, by decide⟩

/-- C5 (amended): if the refresh reveals that the channel no longer exists
(the database lookup throws), the driver reports the channel stopped and
issues no further fetch for it; a channel that still exists is always
fetched again — its `enabled` flag is only honoured at `start()`, so a
disabled-but-present channel is not stopped. Each driver step is a pure
function of its own channel's inputs, so no other channel is affected. -/
theorem c5_stop_on_missing_only :
    (∀ (e : String) (hist : History) (sendOk : RedditPost → Bool)
        (fetchResult : Except String (List RedditPost)),
        updateChannelStep (Except.error e) hist sendOk fetchResult
          = ⟨false, DriverAction.stopped⟩)
    ∧ (∀ (channel : RedditChannel) (hist : History)
        (sendOk : RedditPost → Bool)
        (fetchResult : Except String (List RedditPost)),
        (updateChannelStep (Except.ok (some channel)) hist sendOk
          fetchResult).fetchIssued = true)
    ∧ (∀ (channels : List RedditChannel) (channel : RedditChannel),
        channel ∈ startedChannels channels → channel.enabled = true) := by
  refine ⟨?_, ?_, ?_⟩
  · intro e hist sendOk fetchResult
    rfl
  · intro channel hist sendOk fetchResult
    unfold updateChannelStep
    cases h : updatePostsResult channel hist sendOk fetchResult <;> simp [h]
  · intro channels channel hmem
    exact List.of_mem_filter hmem

/-- Witness for C5 (amended): the membership hypothesis of the third
conjunct discharged at a concrete singleton channel list. -/
theorem c5_stop_on_missing_only_witness :
    (mkChannel 51 none true) ∈ startedChannels [mkChannel 51 none true]
    ∧ (mkChannel 51 none true).enabled = true := by
  refine ⟨by decide, c5_stop_on_missing_only.2.2 [mkChannel 51 none true]
    (mkChannel 51 none true) (by decide)⟩

/-- C6: when the filtered new-candidate set is empty, `publishPosts`
reports the distinguished "There are no new posts to be published!"
outcome without invoking the publisher or touching the history, and the
driver reacts by scheduling the next cycle rather than stopping the
channel. -/
theorem c6_no_new_posts_outcome :
    ∀ (channel : RedditChannel) (hist : History)
      (sendOk : RedditPost → Bool) (posts : List RedditPost),
      filterNew hist posts = [] →
      (publishPosts channel hist sendOk posts)
          = ⟨[], [], hist, 0, some PublishError.noNewPosts⟩
      ∧ PublishError.noNewPosts.message
          = "There are no new posts to be published!"
      ∧ (updateChannelStep (Except.ok (some channel)) hist sendOk
            (Except.ok posts)).action
          = DriverAction.scheduleRetry Reddit.postingInterval
      ∧ (updateChannelStep (Except.ok (some channel)) hist sendOk
            (Except.ok posts)).action ≠ DriverAction.stopped := by
  intro channel hist sendOk posts hf
  have hpp : publishPosts channel hist sendOk posts
      = ⟨[], [], hist, 0, some PublishError.noNewPosts⟩ := by
    unfold publishPosts
    simp [hf]
  have hres : updatePostsResult channel hist sendOk (Except.ok posts)
      = some PublishError.noNewPosts.message := by
    simp [updatePostsResult, hpp]
  have hstep : (updateChannelStep (Except.ok (some channel)) hist sendOk
      (Except.ok posts)).action
      = DriverAction.scheduleRetry Reddit.postingInterval := by
    simp [updateChannelStep, hres]
  exact ⟨hpp, rfl, hstep, by rw [hstep]; exact fun h => by cases h⟩

/-- Witness for C6 at a concrete channel with an empty batch. -/
theorem c6_no_new_posts_outcome_witness :
    filterNew [] [] = []
    ∧ (publishPosts (mkChannel 6 none true) [] (fun _ => true) [])
        = ⟨[], [], [], 0, some PublishError.noNewPosts⟩
    ∧ (updateChannelStep (Except.ok (some (mkChannel 6 none true))) []
        (fun _ => true) (Except.ok [])).action ≠ DriverAction.stopped := by
  refine ⟨rfl,
    (c6_no_new_posts_outcome (mkChannel 6 none true) [] (fun _ => true)
      [] rfl).1,
    (c6_no_new_posts_outcome (mkChannel 6 none true) [] (fun _ => true)
      [] rfl).2.2.2⟩

/-- C7 counterexample: for a post with url "u" whose three publish attempts
all fail with message "x", the surfaced terminal failure is exactly
"Failed to publish the post u. x" — a digit-free string, so the number of
attempts made (3) is not wrapped into the surfaced failure, contrary to
the claim. -/
theorem c7_counterexample :
    (sendPost c7post c7op).attempts.length = 3
    ∧ (sendPost c7post c7op).result
        = Except.error "Failed to publish the post u. x"
    ∧ ("Failed to publish the post u. x".toList.all
        (fun c => !(c.isDigit))) = true := by
  refine ⟨rfl, rfl, by decide⟩

/-- C7 (amended): when the retry budget of 3 attempts is exhausted, the
surfaced terminal failure wraps only the last underlying error's message
behind a fixed description ("Failed to publish the post {url}. {message}"
for a publish, "Failed to get posts from Reddit: {message}" for a fetch);
the number of attempts made appears in per-attempt log lines but is not
part of the surfaced failure. -/
theorem c7_wraps_last_error :
    (∀ (op : Nat → Except String Unit) (post : RedditPost)
        (e1 e2 e3 : String),
        op 1 = Except.error e1 → op 2 = Except.error e2 →
        op 3 = Except.error e3 →
        (sendPost post op).result
            = Except.error
                ("Failed to publish the post " ++ post.url ++ ". " ++ e3)
        ∧ (sendPost post op).attempts.length = Reddit.maxRetries)
    ∧ (∀ (op : Nat → Except String (List RedditPost)) (e1 e2 e3 : String),
        op 1 = Except.error e1 → op 2 = Except.error e2 →
        op 3 = Except.error e3 →
        (updatePosts op).result
            = Except.error ("Failed to get posts from Reddit: " ++ e3)) := by
  constructor
  · intro op post e1 e2 e3 h1 h2 h3
    constructor <;>
      simp [sendPost, retryRun, h1, h2, h3, Reddit.maxRetries]
  · intro op e1 e2 e3 h1 h2 h3
    simp [updatePosts, retryRun, h1, h2, h3, Reddit.maxRetries]

/-- Witness for C7 (amended) at a concrete always-failing operation. -/
theorem c7_wraps_last_error_witness :
    ((fun _ => Except.error "y" : Nat → Except String Unit) 1
        = Except.error "y")
    ∧ (sendPost (mkPost 71) (fun _ => Except.error "y")).result
        = Except.error ("Failed to publish the post "
            ++ (mkPost 71).url ++ ". " ++ "y")
    ∧ (updatePosts (fun _ => Except.error "z")).result
        = Except.error ("Failed to get posts from Reddit: " ++ "z") := by
  refine ⟨rfl,
    (c7_wraps_last_error.1 (fun _ => Except.error "y") (mkPost 71)
      "y" "y" "y" rfl rfl rfl).1,
    c7_wraps_last_error.2 (fun _ => Except.error "z") "z" "z" "z"
      rfl rfl rfl⟩

/-- C8: clearing the published-post history of channel `c` (the intended
semantics of the per-channel `publishedPosts[c].clear` timer callback)
empties exactly channel `c`'s map and leaves every other channel's map
untouched, and the clear timer period `clearingInterval` is a fixed 24
hours (86400000 ms), independent of any fetch or publish activity. -/
theorem c8_clear_intended :
    (∀ (hs : Histories) (c k : Nat),
        clearHistory hs c k = if k = c then [] else hs k)
    ∧ (∀ (hs : Histories) (c : Nat), clearHistory hs c c = [])
    ∧ Reddit.clearingInterval = 86400000
    ∧ Reddit.clearingInterval = 24 * Reddit.hour := by
  refine ⟨fun hs c k => rfl, fun hs c => by simp [clearHistory], rfl, rfl⟩

/-- C9: a channel whose configured interval exceeds the global
`updatingInterval` gets a per-cycle cap of 0, so `publishPosts` never
invokes the publisher for it, and whenever the filtered candidate set is
non-empty the cycle ends with the "Failed to publish any posts" error. -/
theorem c9_zero_cap :
    ∀ (channel : RedditChannel) (hist : History)
      (sendOk : RedditPost → Bool) (posts : List RedditPost) (i : Nat),
      channel.interval = some i → Reddit.updatingInterval < i →
      maxPostsPerUpdate channel = 0
      ∧ (publishPosts channel hist sendOk posts).invoked = []
      ∧ (publishPosts channel hist sendOk posts).counter = 0
      ∧ (filterNew hist posts ≠ [] →
          (publishPosts channel hist sendOk posts).error
            = some (PublishError.noPostsPublished 0 posts.length)) := by
  intro channel hist sendOk posts i hi hlt
  have hiz : i ≠ 0 := by
    intro h0
    rw [h0] at hlt
    exact Nat.not_lt_zero _ hlt
  have hcpi : channelPostingInterval channel = i := by
    unfold channelPostingInterval
    rw [hi]
    simp [hiz]
  have hmax : maxPostsPerUpdate channel = 0 := by
    unfold maxPostsPerUpdate
    rw [hcpi]
    exact Nat.div_eq_of_lt hlt
  by_cases he : (filterNew hist posts).isEmpty
  · have hpp : publishPosts channel hist sendOk posts
        = ⟨[], [], hist, 0, some PublishError.noNewPosts⟩ := by
      unfold publishPosts
      simp [he]
    refine ⟨hmax, by rw [hpp], by rw [hpp], ?_⟩
    intro hne
    exact absurd (List.isEmpty_iff.mp he) hne
  · have hpp : publishPosts channel hist sendOk posts
        = ⟨[], [], hist, 0,
            some (PublishError.noPostsPublished 0 posts.length)⟩ := by
      simp [publishPosts, he, hmax, publishLoop_zero_cap]
    exact ⟨hmax, by rw [hpp], by rw [hpp], fun _ => by rw [hpp]⟩

/-- Witness for C9 at a channel with a 7200000 ms interval and one
candidate post. -/
theorem c9_zero_cap_witness :
    (mkChannel 9 (some 7200000) true).interval = some 7200000
    ∧ Reddit.updatingInterval < 7200000
    ∧ filterNew [] [mkPost 91] ≠ []
    ∧ maxPostsPerUpdate (mkChannel 9 (some 7200000) true) = 0
    ∧ (publishPosts (mkChannel 9 (some 7200000) true) [] (fun _ => true)
        [mkPost 91]).error
        = some (PublishError.noPostsPublished 0 1) := by
  have h := c9_zero_cap (mkChannel 9 (some 7200000) true) [] (fun _ => true)
    [mkPost 91] 7200000 rfl (by decide)
  exact ⟨rfl, by decide, by decide, h.1, by simpa using h.2.2.2 (by decide)⟩

/-- C10: a configured interval of 0 and an absent interval both make
`publishPosts` fall back to the global default posting interval of 300000
ms (5 minutes) — the JS fallback `channel.interval || this.postingInterval`
tests falsiness, so the two configurations are indistinguishable — and
every pacing sleep of the cycle then lasts the default interval. -/
theorem c10_falsy_interval_default :
    ∀ (channel : RedditChannel) (hist : History)
      (sendOk : RedditPost → Bool) (posts : List RedditPost),
      (channel.interval = some 0 ∨ channel.interval = none) →
      channelPostingInterval channel = Reddit.postingInterval
      ∧ Reddit.postingInterval = 300000
      ∧ (publishPosts channel hist sendOk posts).sleeps
          = List.replicate (publishPosts channel hist sendOk posts).counter
              Reddit.postingInterval
      ∧ (∀ (c : RedditChannel) (h : History) (s : RedditPost → Bool)
          (ps : List RedditPost),
          publishPosts { c with interval := some 0 } h s ps
            = publishPosts { c with interval := none } h s ps) := by
  intro channel hist sendOk posts hio
  have hcpi : channelPostingInterval channel = Reddit.postingInterval := by
    rcases hio with h | h <;> simp [channelPostingInterval, h]
  refine ⟨hcpi, rfl, ?_, ?_⟩
  · rw [publishPosts_sleeps, hcpi]
  · intro c h s ps
    rfl

/-- Witness for C10 at a channel with a configured interval of 0. -/
theorem c10_falsy_interval_default_witness :
    ((mkChannel 10 (some 0) true).interval = some 0
      ∨ (mkChannel 10 (some 0) true).interval = none)
    ∧ channelPostingInterval (mkChannel 10 (some 0) true)
        = Reddit.postingInterval := by
  exact ⟨Or.inl rfl,
    (c10_falsy_interval_default (mkChannel 10 (some 0) true) []
      (fun _ => true) [] (Or.inl rfl)).1⟩

end Reddit
